import Mathlib

/-!
# Task entity (src/task.go)

A shallow embedding of the single source file of the repository: the
`TaskStatus` string type with its three constants, the `Task` record, and the
constructor `NewTask`.

`NewTask` reads the wall clock (`time.Now()`) and returns the address of a
freshly allocated record (`&Task{...}`).  Both effects are made explicit by
passing a `State` that holds the clock, the number of readings taken so far
and the store of allocated `Task` records.
-/

namespace TaskModel

/-! ## Data model -/

/-- Go: `type TaskStatus string` (src/task.go:6).  A named string type: every
string converts to a `TaskStatus`. -/
abbrev TaskStatus := String

/-- Go: `TaskStatusPending TaskStatus = "pending"` (src/task.go:9). -/
def TaskStatusPending : TaskStatus := "pending"

/-- Go: `TaskStatusInProgress TaskStatus = "in_progress"` (src/task.go:10). -/
def TaskStatusInProgress : TaskStatus := "in_progress"

/-- Go: `TaskStatusCompleted TaskStatus = "completed"` (src/task.go:11). -/
def TaskStatusCompleted : TaskStatus := "completed"

/-- A `time.Time` value, taken as the instant it denotes: nanoseconds on the
wall clock's time line.  "Not earlier than" is `≤` on instants. -/
abbrev Time := Int

/-- Go: `type Task struct` (src/task.go:15-21), fields in declaration order.
The program never inspects the contents of its string arguments, so Go's
`string` is rendered as `String`.  The `json:"..."` field tags are read only
by the standard library's encoder, which the program never calls; they are
not part of the embedding. -/
structure Task where
  ID : String
  Title : String
  Description : String
  Status : TaskStatus
  CreatedAt : Time
deriving DecidableEq, Repr

/-- The status is one of the three declared constants. -/
def IsDeclaredStatus (v : TaskStatus) : Prop :=
  v = TaskStatusPending ∨ v = TaskStatusInProgress ∨ v = TaskStatusCompleted

instance (v : TaskStatus) : Decidable (IsDeclaredStatus v) := by
  unfold IsDeclaredStatus; infer_instance

/-! ## Ambient state: wall clock and store -/

/-- A pointer `*Task`: `0` is `nil`, `a + 1` is the address of store cell `a`. -/
abbrev Ptr := Nat

/-- The nil pointer. -/
def nil : Ptr := 0

/-- The ambient state of a run.  `clock n` is the `n`-th reading of the wall
clock, `reads` counts the readings taken so far, `store` holds the allocated
`Task` records. -/
structure State where
  clock : Nat → Time
  reads : Nat
  store : List Task

/-- Go: `time.Now()`: take the next reading of the wall clock. -/
def timeNow (s : State) : Time × State :=
  (s.clock s.reads, { s with reads := s.reads + 1 })

/-- Go: `&Task{...}`: allocate a fresh cell holding `t` and return its address. -/
def alloc (t : Task) (s : State) : Ptr × State :=
  (s.store.length + 1, { s with store := s.store ++ [t] })

/-- Go: `*p`: the record `p` points to; `none` for `nil` or a dangling address. -/
def load (p : Ptr) (s : State) : Option Task :=
  match p with
  | 0 => none
  | a + 1 => s.store[a]?

/-- Update of the record `p` points to; `none` (a nil dereference) when `p`
points to no record. -/
def modify (p : Ptr) (f : Task → Task) (s : State) : Option State :=
  match p with
  | 0 => none
  | a + 1 => (s.store[a]?).map (fun t => { s with store := s.store.set a (f t) })

/-- Go: `p.Title = v`. -/
def storeTitle (p : Ptr) (v : String) (s : State) : Option State :=
  modify p (fun t => { t with Title := v }) s

/-- Go: `p.Description = v`. -/
def storeDescription (p : Ptr) (v : String) (s : State) : Option State :=
  modify p (fun t => { t with Description := v }) s

/-- Go: `p.Status = v`, for `v` of type `TaskStatus`. -/
def storeStatus (p : Ptr) (v : TaskStatus) (s : State) : Option State :=
  modify p (fun t => { t with Status := v }) s

/-! ## The constructor -/

/-- Go: `func NewTask(id, title, description string) *Task` (src/task.go:24-32).
The composite literal is evaluated (reading the clock once for `CreatedAt`)
and its address is returned. -/
def NewTask (id title description : String) (s : State) : Ptr × State :=
  let (now, s1) := timeNow s
  alloc
    { ID := id,
      Title := title,
      Description := description,
      Status := TaskStatusPending,
      CreatedAt := now }
    s1

/-- A start state: a clock whose `n`-th reading is `n`, no reading taken, an
empty store. -/
def State.start : State :=
  { clock := fun n => (n : Int), reads := 0, store := [] }

/-! ## Basic facts about the store -/

theorem load_alloc (t : Task) (s : State) :
    load (alloc t s).1 (alloc t s).2 = some t := by
  simp [load, alloc]

theorem load_alloc_old (t : Task) (s : State) (p : Ptr) (u : Task)
    (h : load p s = some u) : load p (alloc t s).2 = some u := by
  cases p with
  | zero => simp [load] at h
  | succ a =>
    simp only [load] at h
    have hlt : a < s.store.length := by
      by_contra hge
      rw [List.getElem?_eq_none (by omega)] at h
      exact Option.noConfusion h
    simp only [load, alloc]
    rw [List.getElem?_append_left hlt]
    exact h

theorem modify_load_same (p : Ptr) (f : Task → Task) (s : State) (t : Task)
    (h : load p s = some t) :
    ∃ s2, modify p f s = some s2 ∧ load p s2 = some (f t) ∧
      s2.clock = s.clock ∧ s2.reads = s.reads := by
  cases p with
  | zero => simp [load] at h
  | succ a =>
    simp only [load] at h
    have hlt : a < s.store.length := by
      by_contra hge
      rw [List.getElem?_eq_none (by omega)] at h
      exact Option.noConfusion h
    refine ⟨{ s with store := s.store.set a (f t) }, ?_, ?_, rfl, rfl⟩
    · simp [modify, h]
    · simp [load, hlt]

theorem modify_load_other (p q : Ptr) (f : Task → Task) (s s2 : State)
    (hpq : p ≠ q) (h : modify p f s = some s2) : load q s2 = load q s := by
  cases p with
  | zero => simp [modify] at h
  | succ a =>
    simp only [modify, Option.map_eq_some'] at h
    obtain ⟨t, _, rfl⟩ := h
    cases q with
    | zero => rfl
    | succ b =>
      have hab : a ≠ b := fun e => hpq (by rw [e])
      simp only [load]
      exact List.getElem?_set_ne hab


/-- What `NewTask` leaves behind: the returned address is the next free one,
one more clock reading has been taken, and the new cell holds the literal. -/
theorem NewTask_eq (id title description : String) (s : State) :
    NewTask id title description s =
      (s.store.length + 1,
        { clock := s.clock, reads := s.reads + 1,
          store := s.store ++
            [{ ID := id, Title := title, Description := description,
               Status := TaskStatusPending, CreatedAt := s.clock s.reads }] }) := by
  rfl

theorem load_NewTask (id title description : String) (s : State) :
    load (NewTask id title description s).1 (NewTask id title description s).2 =
      some { ID := id, Title := title, Description := description,
             Status := TaskStatusPending, CreatedAt := s.clock s.reads } := by
  simp [NewTask_eq, load]

theorem NewTask_fst (id title description : String) (s : State) :
    (NewTask id title description s).1 = s.store.length + 1 := rfl

theorem NewTask_store_length (id title description : String) (s : State) :
    (NewTask id title description s).2.store.length = s.store.length + 1 := by
  simp [NewTask_eq]

/-- A call of `NewTask` leaves every record allocated before it as it was. -/
theorem load_NewTask_old (id title description : String) (s : State) (p : Ptr) (u : Task)
    (h : load p s = some u) : load p (NewTask id title description s).2 = some u :=
  load_alloc_old _ (timeNow s).2 p u h

/-! ## Claims about the constructor -/

/-- C1: for every id, title and description and every state of the clock, the
record `NewTask` returns has `Status` equal to `TaskStatusPending`, the string
"pending". -/
theorem NewTask_status_pending (id title description : String) (s : State) :
    ∃ t, load (NewTask id title description s).1 (NewTask id title description s).2 = some t ∧
      t.Status = TaskStatusPending ∧ t.Status = "pending" :=
  ⟨_, load_NewTask id title description s, rfl, rfl⟩

/-- C2: for every id, title and description (empty strings included) the
record `NewTask` returns carries exactly these three strings in `ID`, `Title`
and `Description`; in particular `NewTask("t-1", "Buy milk", "2% milk, 1 gallon")`
has these three values and status "pending". -/
theorem NewTask_fields_exact :
    (∀ (id title description : String) (s : State),
      ∃ t, load (NewTask id title description s).1 (NewTask id title description s).2 = some t ∧
        t.ID = id ∧ t.Title = title ∧ t.Description = description) ∧
    (∀ s : State,
      ∃ t, load (NewTask "t-1" "Buy milk" "2% milk, 1 gallon" s).1
              (NewTask "t-1" "Buy milk" "2% milk, 1 gallon" s).2 = some t ∧
        t.ID = "t-1" ∧ t.Title = "Buy milk" ∧ t.Description = "2% milk, 1 gallon" ∧
        t.Status = "pending") ∧
    (∀ s : State,
      ∃ t, load (NewTask "" "" "" s).1 (NewTask "" "" "" s).2 = some t ∧
        t.ID = "" ∧ t.Title = "" ∧ t.Description = "") :=
  ⟨fun id title description s => ⟨_, load_NewTask id title description s, rfl, rfl, rfl⟩,
   fun s => ⟨_, load_NewTask _ _ _ s, rfl, rfl, rfl, rfl⟩,
   fun s => ⟨_, load_NewTask _ _ _ s, rfl, rfl, rfl⟩⟩

/-- C3: with a non-decreasing clock, a call of `NewTask` placed between two
readings of the clock takes exactly one reading, `CreatedAt` of the returned
record is that reading, and it is not earlier than the reading before the call
and not later than the reading after it. -/
theorem NewTask_createdAt_between (id title description : String) (s : State)
    (hmono : Monotone s.clock) :
    (NewTask id title description (timeNow s).2).2.reads = (timeNow s).2.reads + 1 ∧
    ∃ t, load (NewTask id title description (timeNow s).2).1
            (NewTask id title description (timeNow s).2).2 = some t ∧
      t.CreatedAt = s.clock (timeNow s).2.reads ∧
      (timeNow s).1 ≤ t.CreatedAt ∧
      t.CreatedAt ≤ (timeNow (NewTask id title description (timeNow s).2).2).1 := by
  refine ⟨rfl, _, load_NewTask id title description (timeNow s).2, rfl, ?_, ?_⟩
  · exact hmono (Nat.le_succ s.reads)
  · exact hmono (Nat.le_succ (s.reads + 1))

theorem NewTask_createdAt_between_witness :
    Monotone State.start.clock ∧
    (NewTask "t-1" "Buy milk" "" (timeNow State.start).2).2.reads = 2 ∧
    ∃ t, load (NewTask "t-1" "Buy milk" "" (timeNow State.start).2).1
            (NewTask "t-1" "Buy milk" "" (timeNow State.start).2).2 = some t ∧
      t.CreatedAt = 1 ∧
      (0 : Int) ≤ t.CreatedAt ∧ t.CreatedAt ≤ 2 := by
  have hmono : Monotone State.start.clock := fun a b h => Int.ofNat_le.mpr h
  obtain ⟨h1, t, h2, h3, h4, h5⟩ :=
    NewTask_createdAt_between "t-1" "Buy milk" "" State.start hmono
  exact ⟨hmono, h1, t, h2, h3, h4, h5⟩

/-- C4: `NewTask` cannot fail: for every id, title and description, with no
condition on them, it returns a non-nil pointer to an allocated record. -/
theorem NewTask_never_fails (id title description : String) (s : State) :
    (NewTask id title description s).1 ≠ nil ∧
    ∃ t, load (NewTask id title description s).1 (NewTask id title description s).2 = some t :=
  ⟨Nat.succ_ne_zero _, _, load_NewTask id title description s⟩

/-! ## Claims about the status type -/

/-- C7: the three status constants are the strings "pending", "in_progress"
and "completed", and they are pairwise distinct. -/
theorem status_constants :
    TaskStatusPending = "pending" ∧
    TaskStatusInProgress = "in_progress" ∧
    TaskStatusCompleted = "completed" ∧
    TaskStatusPending ≠ TaskStatusInProgress ∧
    TaskStatusPending ≠ TaskStatusCompleted ∧
    TaskStatusInProgress ≠ TaskStatusCompleted := by
  refine ⟨rfl, rfl, rfl, ?_, ?_, ?_⟩ <;> decide

/-- C5, as stated, fails: assigning the `TaskStatus` value "archived" to the
`Status` field of a record returned by `NewTask` leaves a record whose status
is none of the three declared constants. -/
theorem status_assignment_counterexample :
    ∃ s2 t,
      storeStatus (NewTask "t-1" "Buy milk" "" State.start).1 "archived"
        (NewTask "t-1" "Buy milk" "" State.start).2 = some s2 ∧
      load (NewTask "t-1" "Buy milk" "" State.start).1 s2 = some t ∧
      t.Status = "archived" ∧ ¬ IsDeclaredStatus t.Status := by
  obtain ⟨s2, h1, h2, _, _⟩ :=
    modify_load_same (NewTask "t-1" "Buy milk" "" State.start).1
      (fun t => { t with Status := "archived" })
      (NewTask "t-1" "Buy milk" "" State.start).2 _
      (load_NewTask "t-1" "Buy milk" "" State.start)
  exact ⟨s2, _, h1, h2, rfl, by decide⟩

/-- C5, amended: a record freshly returned by `NewTask` has status "pending",
one of the three declared constants; after a direct assignment of a
`TaskStatus` value `v` to its `Status` field the status is exactly `v`, hence
one of the three constants if and only if `v` is. -/
theorem status_after_assignment (id title description : String) (s : State)
    (v : TaskStatus) :
    (∃ t, load (NewTask id title description s).1 (NewTask id title description s).2 = some t ∧
      t.Status = TaskStatusPending ∧ IsDeclaredStatus t.Status) ∧
    (∃ s2 t,
      storeStatus (NewTask id title description s).1 v (NewTask id title description s).2
        = some s2 ∧
      load (NewTask id title description s).1 s2 = some t ∧
      t.Status = v ∧
      (IsDeclaredStatus t.Status ↔
        v = TaskStatusPending ∨ v = TaskStatusInProgress ∨ v = TaskStatusCompleted)) := by
  refine ⟨⟨_, load_NewTask id title description s, rfl, Or.inl rfl⟩, ?_⟩
  obtain ⟨s2, h1, h2, _, _⟩ :=
    modify_load_same (NewTask id title description s).1
      (fun t => { t with Status := v })
      (NewTask id title description s).2 _
      (load_NewTask id title description s)
  exact ⟨s2, _, h1, h2, rfl, Iff.rfl⟩

/-! ## Independence and purity -/

/-- C8: two sequential calls of `NewTask` with the same id both return a
non-nil pointer to a record with that ID; the two records live in different
cells, and assigning `Title`, `Description` or `Status` through either pointer
leaves the record behind the other pointer unchanged in every field. -/
theorem NewTask_same_id_independent
    (id title1 description1 title2 description2 : String) (s s1 s2 : State) (p1 p2 : Ptr)
    (h1 : NewTask id title1 description1 s = (p1, s1))
    (h2 : NewTask id title2 description2 s1 = (p2, s2)) :
    p1 ≠ nil ∧ p2 ≠ nil ∧ p1 ≠ p2 ∧
    ∃ t1 t2, load p1 s2 = some t1 ∧ load p2 s2 = some t2 ∧
      t1.ID = id ∧ t2.ID = id ∧
      (∀ v, ∃ s3, storeTitle p1 v s2 = some s3 ∧ load p2 s3 = some t2) ∧
      (∀ v, ∃ s3, storeDescription p1 v s2 = some s3 ∧ load p2 s3 = some t2) ∧
      (∀ v, ∃ s3, storeStatus p1 v s2 = some s3 ∧ load p2 s3 = some t2) ∧
      (∀ v, ∃ s3, storeTitle p2 v s2 = some s3 ∧ load p1 s3 = some t1) ∧
      (∀ v, ∃ s3, storeDescription p2 v s2 = some s3 ∧ load p1 s3 = some t1) ∧
      (∀ v, ∃ s3, storeStatus p2 v s2 = some s3 ∧ load p1 s3 = some t1) := by
  have hp1 : p1 = (NewTask id title1 description1 s).1 := by rw [h1]
  have hs1 : s1 = (NewTask id title1 description1 s).2 := by rw [h1]
  subst hp1 hs1
  have hp2 : p2 = (NewTask id title2 description2 (NewTask id title1 description1 s).2).1 := by
    rw [h2]
  have hs2 : s2 = (NewTask id title2 description2 (NewTask id title1 description1 s).2).2 := by
    rw [h2]
  subst hp2 hs2
  have l1b := load_NewTask_old id title2 description2 _ _ _
    (load_NewTask id title1 description1 s)
  have l2 := load_NewTask id title2 description2 (NewTask id title1 description1 s).2
  have hne : (NewTask id title1 description1 s).1 ≠
      (NewTask id title2 description2 (NewTask id title1 description1 s).2).1 := by
    have hlen := NewTask_store_length id title1 description1 s
    intro e
    rw [NewTask_fst, NewTask_fst, hlen] at e
    exact absurd e (Nat.ne_of_lt (Nat.lt_succ_self _))
  have frame : ∀ (s2 : State) (p q : Ptr) (f : Task → Task) (t u : Task), p ≠ q →
      load p s2 = some t → load q s2 = some u →
      ∃ s3, modify p f s2 = some s3 ∧ load q s3 = some u := by
    intro s2 p q f t u hpq hp hq
    obtain ⟨s3, hm, _, _, _⟩ := modify_load_same p f s2 t hp
    exact ⟨s3, hm, (modify_load_other p q f s2 s3 hpq hm).trans hq⟩
  refine ⟨Nat.succ_ne_zero _, Nat.succ_ne_zero _,
    hne, _, _, l1b, l2, rfl, rfl, ?_, ?_, ?_, ?_, ?_, ?_⟩
  · exact fun v => frame _ _ _ _ _ _ hne l1b l2
  · exact fun v => frame _ _ _ _ _ _ hne l1b l2
  · exact fun v => frame _ _ _ _ _ _ hne l1b l2
  · exact fun v => frame _ _ _ _ _ _ (Ne.symm hne) l2 l1b
  · exact fun v => frame _ _ _ _ _ _ (Ne.symm hne) l2 l1b
  · exact fun v => frame _ _ _ _ _ _ (Ne.symm hne) l2 l1b

theorem NewTask_same_id_independent_witness :
    NewTask "t-1" "Buy milk" "" State.start =
      (1, { clock := State.start.clock, reads := 1,
            store := [{ ID := "t-1", Title := "Buy milk", Description := "",
                        Status := "pending", CreatedAt := 0 }] }) ∧
    NewTask "t-1" "Buy bread" "rye"
        { clock := State.start.clock, reads := 1,
          store := [{ ID := "t-1", Title := "Buy milk", Description := "",
                      Status := "pending", CreatedAt := 0 }] } =
      (2, { clock := State.start.clock, reads := 2,
            store := [{ ID := "t-1", Title := "Buy milk", Description := "",
                        Status := "pending", CreatedAt := 0 },
                      { ID := "t-1", Title := "Buy bread", Description := "rye",
                        Status := "pending", CreatedAt := 1 }] }) ∧
    (1 : Ptr) ≠ 2 ∧
    ∃ t1 t2,
      load 1 { clock := State.start.clock, reads := 2,
               store := [{ ID := "t-1", Title := "Buy milk", Description := "",
                           Status := "pending", CreatedAt := 0 },
                         { ID := "t-1", Title := "Buy bread", Description := "rye",
                           Status := "pending", CreatedAt := 1 }] } = some t1 ∧
      load 2 { clock := State.start.clock, reads := 2,
               store := [{ ID := "t-1", Title := "Buy milk", Description := "",
                           Status := "pending", CreatedAt := 0 },
                         { ID := "t-1", Title := "Buy bread", Description := "rye",
                           Status := "pending", CreatedAt := 1 }] } = some t2 ∧
      t1.ID = "t-1" ∧ t2.ID = "t-1" := by
  obtain ⟨_, _, hne, t1, t2, l1, l2, i1, i2, _⟩ :=
    NewTask_same_id_independent "t-1" "Buy milk" "" "Buy bread" "rye" State.start
      _ _ 1 2 rfl rfl
  exact ⟨rfl, rfl, hne, t1, t2, l1, l2, i1, i2⟩

/-- C9: apart from the clock reading `NewTask` is pure.  The returned record is
determined by the three arguments and the reading taken; two calls with equal
arguments and the same reading return records equal in every field; two calls
with equal arguments at any readings agree on `ID`, `Title`, `Description` and
`Status`; and the call changes neither the clock nor any record allocated
before it. -/
theorem NewTask_pure (id title description : String) (s1 s2 : State) :
    load (NewTask id title description s1).1 (NewTask id title description s1).2 =
      some { ID := id, Title := title, Description := description,
             Status := TaskStatusPending, CreatedAt := s1.clock s1.reads } ∧
    (s1.clock s1.reads = s2.clock s2.reads →
      load (NewTask id title description s1).1 (NewTask id title description s1).2 =
        load (NewTask id title description s2).1 (NewTask id title description s2).2) ∧
    (∃ t1 t2,
      load (NewTask id title description s1).1 (NewTask id title description s1).2 = some t1 ∧
      load (NewTask id title description s2).1 (NewTask id title description s2).2 = some t2 ∧
      t1.ID = t2.ID ∧ t1.Title = t2.Title ∧ t1.Description = t2.Description ∧
      t1.Status = t2.Status) ∧
    (NewTask id title description s1).2.clock = s1.clock ∧
    (∀ p u, load p s1 = some u → load p (NewTask id title description s1).2 = some u) := by
  refine ⟨load_NewTask id title description s1, ?_,
    ⟨_, _, load_NewTask id title description s1, load_NewTask id title description s2,
      rfl, rfl, rfl, rfl⟩,
    rfl, fun p u h => load_NewTask_old id title description s1 p u h⟩
  intro h
  rw [load_NewTask, load_NewTask, h]

theorem NewTask_pure_witness :
    State.start.clock State.start.reads =
      (NewTask "t-0" "" "" { State.start with clock := fun _ => 0 }).2.clock
        (NewTask "t-0" "" "" { State.start with clock := fun _ => 0 }).2.reads ∧
    load (NewTask "t-1" "Buy milk" "" State.start).1
        (NewTask "t-1" "Buy milk" "" State.start).2 =
      load (NewTask "t-1" "Buy milk" ""
              (NewTask "t-0" "" "" { State.start with clock := fun _ => 0 }).2).1
        (NewTask "t-1" "Buy milk" ""
              (NewTask "t-0" "" "" { State.start with clock := fun _ => 0 }).2).2 :=
  ⟨rfl,
   (NewTask_pure "t-1" "Buy milk" "" State.start
      (NewTask "t-0" "" "" { State.start with clock := fun _ => 0 }).2).2.1 rfl⟩

end TaskModel
